import Mathlib

/-!
Verification development for the CyberXLTR_Admin repository.

The definitions below shallowly embed the client-side TypeScript of the
admin panel (the Next.js frontend under `frontend/src`) together with the
parts of the backend that the specification describes but whose Python
sources are not part of this repository snapshot (those definitions carry a
`Modelled from the spec:` doc comment).

Conventions used throughout the embedding:
* JavaScript truthiness of a string is modelled as the string being
  non-empty; truthiness of an optional value additionally requires the
  value to be present.
* A value kept in browser `localStorage` under `admin_user` is a raw
  string; the model quotients such strings by the outcome of `JSON.parse`:
  `StoredUserVal.valid u` stands for a string that parses back to the user
  record `u` (in particular the output of `JSON.stringify` on a user
  record, which is always a non-empty string), while
  `StoredUserVal.invalid raw` stands for a raw string `raw` on which
  `JSON.parse` throws.
-/

/-- The `User` record of the frontend (`store/authStore.ts`). -/
structure UserRec where
  id : String
  email : String
  first_name : String
  last_name : Option String
  full_name : Option String
  role : String
deriving DecidableEq, Repr

/-- Zustand auth-store state (`useAuthStore` in `store/authStore.ts`). -/
structure AuthState where
  user : Option UserRec
  token : Option String
  isAuthenticated : Bool
deriving DecidableEq, Repr

/-- A raw string held under the `admin_user` key of `localStorage`,
quotiented by its `JSON.parse` outcome. -/
inductive StoredUserVal where
  | valid (u : UserRec)
  | invalid (raw : String)
deriving DecidableEq, Repr

/-- Browser `localStorage`, restricted to the two keys the store uses. -/
structure BrowserStorage where
  admin_token : Option String
  admin_user : Option StoredUserVal
deriving DecidableEq, Repr

/-- In-memory store state together with the persistent browser storage. -/
structure ClientState where
  store : AuthState
  storage : BrowserStorage
deriving DecidableEq, Repr

/-- The initial zustand state: `user: null, token: null, isAuthenticated: false`. -/
def initialAuth : AuthState := ⟨none, none, false⟩

/-- Browser storage with neither `admin_token` nor `admin_user` set. -/
def emptyStorage : BrowserStorage := ⟨none, none⟩

/-- The client state of a fresh browser session. -/
def initialClient : ClientState := ⟨initialAuth, emptyStorage⟩

/-- JavaScript truthiness of a string value: non-empty. -/
def strTruthy (s : String) : Bool := !s.isEmpty

/-- Truthiness of the raw string behind a stored `admin_user` value.
`JSON.stringify` of a user record always yields a non-empty string. -/
def storedUserTruthy : StoredUserVal → Bool
  | .valid _ => true
  | .invalid raw => !raw.isEmpty

/-- `JSON.parse` on the raw string behind a stored `admin_user` value:
`none` models the thrown `SyntaxError`. -/
def jsonParseUser : StoredUserVal → Option UserRec
  | .valid u => some u
  | .invalid _ => none

/-- `login(user, token)` of `useAuthStore`: writes both `localStorage`
keys and sets the store to the authenticated triple. -/
def loginOp (u : UserRec) (t : String) (_s : ClientState) : ClientState :=
  { store := ⟨some u, some t, true⟩
    storage := ⟨some t, some (StoredUserVal.valid u)⟩ }

/-- `logout()` of `useAuthStore`: removes both `localStorage` keys and
resets the store. -/
def logoutOp (_s : ClientState) : ClientState :=
  { store := ⟨none, none, false⟩
    storage := ⟨none, none⟩ }

/-- `initAuth()` of `useAuthStore`: re-reads both `localStorage` keys; if
both are truthy it parses the stored user, on success sets the
authenticated triple, and on a parse failure removes both keys; in every
other case it does nothing. -/
def initAuthOp (s : ClientState) : ClientState :=
  match s.storage.admin_token, s.storage.admin_user with
  | some t, some su =>
    if strTruthy t && storedUserTruthy su then
      match jsonParseUser su with
      | some u => { s with store := ⟨some u, some t, true⟩ }
      | none => { s with storage := ⟨none, none⟩ }
    else s
  | some _, none => s
  | none, some _ => s
  | none, none => s

/-- A page reload: the in-memory zustand store is recreated at its initial
value while browser storage persists. -/
def reloadOp (s : ClientState) : ClientState :=
  { s with store := initialAuth }

/-- One element of a FastAPI validation-error `detail` array as the login
page reads it: its optional `msg` field and the result of `String(d)`. -/
structure DetailElem where
  msg : Option String
  asStr : String
deriving DecidableEq, Repr

/-- The `detail` field of an error response body: a string, an array, or
anything else (missing / non-string / non-array). -/
inductive DetailVal where
  | str (s : String)
  | arr (elems : List DetailElem)
  | other
deriving DecidableEq, Repr

/-- Body of a successful HTTP response to `POST /api/v1/auth/login` as the
login page reads it (`response.data`). -/
structure LoginBody where
  success : Bool
  access_token : Option String
  user : UserRec
  message : Option String
deriving DecidableEq, Repr

/-- Outcome of the axios `POST /api/v1/auth/login` call: a resolved
response body or a rejected promise carrying an error `detail`. -/
inductive LoginResp where
  | ok (b : LoginBody)
  | err (detail : DetailVal)
deriving DecidableEq, Repr

/-- JavaScript `a || b` on an optional string `a` with fallback `b`. -/
def jsOrStr (a : Option String) (b : String) : String :=
  match a with
  | some s => if s.isEmpty then b else s
  | none => b

/-- `d.msg || String(d)` for one element of a `detail` array. -/
def detailElemText (e : DetailElem) : String := jsOrStr e.msg e.asStr

/-- Everything `onSubmit` of the login page does that is visible to the
user: the resulting client state, the toasts, and the navigation target. -/
structure LoginSubmitResult where
  state : ClientState
  toastSuccessMsg : Option String
  toastErrorMsg : Option String
  navigateTo : Option String
deriving DecidableEq, Repr

/-- The `else` branch of `onSubmit` on a resolved response whose body does
not pass `response.data.success && response.data.access_token`. -/
def loginSubmitElse (b : LoginBody) (s : ClientState) : LoginSubmitResult :=
  ⟨s, none, some (jsOrStr b.message ("Login failed")), none⟩

/-- `onSubmit` of the login page (`app/login/page.tsx`): posts the
credentials and dispatches on the response. -/
def onSubmitLogin (resp : LoginResp) (s : ClientState) : LoginSubmitResult :=
  match resp with
  | .ok b =>
    match b.access_token with
    | some t =>
      if b.success && strTruthy t then
        ⟨loginOp b.user t s, some ("Login successful!"), none, some ("/dashboard")⟩
      else
        loginSubmitElse b s
    | none => loginSubmitElse b s
  | .err d =>
    ⟨s, none,
     some (match d with
           | .str m => m
           | .arr l => String.intercalate (", ") (l.map detailElemText)
           | .other => "Invalid credentials. Please try again."),
     none⟩

/-- A login response body that carries both a `success` flag set to true
and a (truthy, i.e. non-empty) `access_token` value. -/
def respHasSuccessAndToken (resp : LoginResp) : Prop :=
  ∃ b t, resp = LoginResp.ok b ∧ b.success = true ∧
    b.access_token = some t ∧ t ≠ ""

/-- A user row of the backend `users` table (schema from the migration notes of the repository: id, email, encrypted_password, names, global_role,
is_active, email_verified, timestamps). -/
structure DbUser where
  id : String
  email : String
  encrypted_password : String
  first_name : String
  last_name : String
  full_name : String
  global_role : String
  is_active : Bool
  email_verified : Bool
  created_at : String
  updated_at : String
deriving DecidableEq, Repr

/-- Result of the backend credential verifier. -/
inductive AuthOutcome where
  | okUser (u : DbUser)
  | invalidCredentials
deriving DecidableEq, Repr

/-- Modelled from the spec: the backend credential verifier of
`backend/src/api/auth.py`, which is not included under the sources of the
repository snapshot. Per the spec it looks up the active user by email,
compares the password against the stored hash (the comparison is passed in
as `hashMatches`), returns the user record on match and signals
`InvalidCredentials` otherwise, without distinguishing unknown email from
wrong password. -/
def verifyCredentials (hashMatches : String → String → Bool)
    (db : List DbUser) (em pw : String) : AuthOutcome :=
  match db.find? (fun u => u.email == em && u.is_active) with
  | some u =>
    if hashMatches pw u.encrypted_password then AuthOutcome.okUser u
    else AuthOutcome.invalidCredentials
  | none => AuthOutcome.invalidCredentials

/-- Modelled from the spec: the HTTP error surfaced for a failed login —
status plus message, identical for every `InvalidCredentials` outcome. -/
def loginErrorDetail : AuthOutcome → Option (Nat × String)
  | .okUser _ => none
  | .invalidCredentials => some (401, "Invalid credentials")

/-- The `Organization` record as the organizations page reads it
(`app/dashboard/organizations/page.tsx`). -/
structure OrgRec where
  id : String
  name : String
  url : String
  subscription_tier : String
  is_active : Bool
  created_at : String
  billing_email : Option String
  support_email : Option String
  phone : Option String
  company_address : Option String
deriving DecidableEq, Repr

/-- The `User` record as the users page reads it
(`app/dashboard/users/page.tsx`). -/
structure PageUserRec where
  id : String
  email : String
  first_name : String
  last_name : Option String
  full_name : Option String
  is_active : Bool
  email_verified : Bool
  created_at : String
deriving DecidableEq, Repr

/-- An HTTP request issued by a dashboard action. -/
inductive ApiRequest where
  | del (path : String)
  | post (path : String)
deriving DecidableEq, Repr

/-- `handleToggleStatus` on the organizations page: DELETE the resource
when it is active, POST its `reactivate` route when it is not. -/
def orgToggleRequest (o : OrgRec) : ApiRequest :=
  if o.is_active then ApiRequest.del ("/api/v1/organizations/" ++ o.id)
  else ApiRequest.post ("/api/v1/organizations/" ++ o.id ++ "/reactivate")

/-- `handleToggleStatus` on the users page: DELETE the resource when it is
active, POST its `reactivate` route when it is not. -/
def userToggleRequest (u : PageUserRec) : ApiRequest :=
  if u.is_active then ApiRequest.del ("/api/v1/users/" ++ u.id)
  else ApiRequest.post ("/api/v1/users/" ++ u.id ++ "/reactivate")

/-- Modelled from the spec: the backend handler for
`DELETE /api/v1/users/{id}` (absent from the sources of the repository snapshot).
Per the spec, DELETE means deactivate: it flips the active flag of the
addressed row to false and removes nothing. -/
def deactivateUserRow (uid : String) (tbl : List DbUser) : List DbUser :=
  tbl.map (fun r => if r.id == uid then { r with is_active := false } else r)

/-- Modelled from the spec: the backend handler for
`POST /api/v1/users/{id}/reactivate`: flips the active flag of the
addressed row to true and changes nothing else. -/
def reactivateUserRow (uid : String) (tbl : List DbUser) : List DbUser :=
  tbl.map (fun r => if r.id == uid then { r with is_active := true } else r)

/-- Modelled from the spec: the backend handler for
`DELETE /api/v1/organizations/{id}`: flips the active flag of the
addressed row to false and removes nothing. -/
def deactivateOrgRow (oid : String) (tbl : List OrgRec) : List OrgRec :=
  tbl.map (fun r => if r.id == oid then { r with is_active := false } else r)

/-- Modelled from the spec: the backend handler for
`POST /api/v1/organizations/{id}/reactivate`: flips the active flag of the
addressed row to true and changes nothing else. -/
def reactivateOrgRow (oid : String) (tbl : List OrgRec) : List OrgRec :=
  tbl.map (fun r => if r.id == oid then { r with is_active := true } else r)

/-- Modelled from the spec: default listings exclude deactivated rows. -/
def listedUsers (tbl : List DbUser) : List DbUser :=
  tbl.filter (fun r => r.is_active)

/-- Every field of a backend user row except the active flag. -/
def dbUserFrame (r : DbUser) :
    String × String × String × String × String × String × String × Bool × String × String :=
  (r.id, r.email, r.encrypted_password, r.first_name, r.last_name,
   r.full_name, r.global_role, r.email_verified, r.created_at, r.updated_at)

/-- Every field of an organization record except the active flag. -/
def orgFrame (r : OrgRec) :
    String × String × String × String × String × Option String × Option String ×
      Option String × Option String :=
  (r.id, r.name, r.url, r.subscription_tier, r.created_at, r.billing_email,
   r.support_email, r.phone, r.company_address)

/-- Bool-valued infix test on lists, the way JavaScript
`String.prototype.includes` behaves on the underlying character data. -/
def listOccursIn : List Char → List Char → Bool
  | n, [] => n.isEmpty
  | n, c :: t => n.isPrefixOf (c :: t) || listOccursIn n t

/-- JavaScript `hay.includes(needle)` on strings. -/
def jsIncludes (hay needle : String) : Bool :=
  listOccursIn needle.data hay.data

/-- JavaScript `toLowerCase()`, modelled as lower-casing each character. -/
def jsToLower (s : String) : String := String.mk (s.data.map Char.toLower)

/-- `filteredOrgs` of the organizations page: keep the organizations whose
lower-cased name or url contains the lower-cased search string. -/
def filteredOrgs (orgs : List OrgRec) (search : String) : List OrgRec :=
  orgs.filter (fun o =>
    jsIncludes (jsToLower o.name) (jsToLower search) ||
    jsIncludes (jsToLower o.url) (jsToLower search))

/-- The status badge the organizations page renders for a row. -/
def orgStatusLabel (o : OrgRec) : String :=
  if o.is_active then ("Active") else ("Inactive")

/-- An organization row as the users page reads it for the membership
dropdown. -/
structure OrgChoice where
  id : String
  name : String
  is_active : Bool
deriving DecidableEq, Repr

/-- `activeOrgs` of the users page: the organizations offered in the
create-user dropdown. -/
def activeOrgs (orgs : List OrgChoice) : List OrgChoice :=
  orgs.filter (fun o => o.is_active)

/-- The create-user form state of the users page. -/
structure UserForm where
  email : String
  first_name : String
  last_name : String
  phone : String
  job_title : String
  department : String
  password : String
  confirm_password : String
  organization_id : String
  role : String
deriving DecidableEq, Repr

/-- What the client-side validation of `handleCreate` on the users page
does before any request is sent: either reject with a toast message or
submit the form to `POST /api/v1/users/`. -/
inductive UserCreateAction where
  | reject (msg : String)
  | submit (f : UserForm)
deriving DecidableEq, Repr

/-- The validation prefix of `handleCreate` on the users page, in source
order: password mismatch, then password length, then missing
organization; only past all three is the request issued. -/
def handleCreateUser (f : UserForm) : UserCreateAction :=
  if f.password ≠ f.confirm_password then
    UserCreateAction.reject ("Passwords do not match")
  else if f.password.length < 8 then
    UserCreateAction.reject ("Password must be at least 8 characters")
  else if f.organization_id.isEmpty then
    UserCreateAction.reject ("Please select an organization")
  else UserCreateAction.submit f

/-- The create-organization form state of the organizations page. -/
structure OrgForm where
  name : String
  url : String
  subscription_tier : String
  billing_email : String
  support_email : String
  phone : String
  company_address : String
deriving DecidableEq, Repr

/-- The initial create-organization form, also what the form is reset to
after a successful creation. -/
def emptyOrgForm : OrgForm := ⟨"", "", "starter", "", "", "", ""⟩

/-- The create-notification form state of the notifications page. -/
structure NotifForm where
  title : String
  message : String
  type : String
  priority : Int
deriving DecidableEq, Repr

/-- The initial create-notification form, also what the form is reset to
after a successful creation. -/
def emptyNotifForm : NotifForm := ⟨"", "", "info", 1⟩

/-- Outcome of a dashboard create request as the page reads it: a resolved
response body (with the truthiness of the fields the page inspects) or a
rejected promise whose `detail` is a string or something else. -/
inductive OrgCreateResp where
  | ok (success : Bool)
  | err (detail : Option String)
deriving DecidableEq, Repr

/-- Outcome of the create-notification request; the page inspects both the
`success` and the `notification` fields of the body. -/
inductive NotifCreateResp where
  | ok (success : Bool) (notification : Bool)
  | err (detail : Option String)
deriving DecidableEq, Repr

/-- What a dashboard `handleCreate` does that is visible to the user: the
resulting form state and the toasts. -/
structure CreateOutcome (F : Type) where
  form : F
  toastErrorMsg : Option String
  toastSuccessMsg : Option String
deriving DecidableEq, Repr

/-- `handleCreate` of the organizations page: reset the form and toast
success when `response.data.success` is truthy; on a rejected request
toast the string `detail` verbatim (or a fixed fallback) and leave the
form alone. -/
def handleCreateOrg (resp : OrgCreateResp) (f : OrgForm) : CreateOutcome OrgForm :=
  match resp with
  | .ok true =>
    ⟨emptyOrgForm, none,
     some ("Organization \"" ++ f.name ++ "\" created successfully!")⟩
  | .ok false => ⟨f, none, none⟩
  | .err d =>
    ⟨f, some (match d with
              | some m => m
              | none => "Failed to create organization"), none⟩

/-- `handleCreate` of the notifications page: reset the form and toast
success when `response.data.success || response.data.notification` is
truthy; on a rejected request toast the string `detail` verbatim (or a
fixed fallback) and leave the form alone. -/
def handleCreateNotif (resp : NotifCreateResp) (f : NotifForm) : CreateOutcome NotifForm :=
  match resp with
  | .ok s n =>
    if s || n then ⟨emptyNotifForm, none, some ("Notification created successfully!")⟩
    else ⟨f, none, none⟩
  | .err d =>
    ⟨f, some (match d with
              | some m => m
              | none => "Failed to create notification"), none⟩

/-- The client states reachable from a fresh browser session by the three
operations of `useAuthStore`. -/
inductive ReachableClient : ClientState → Prop where
  | start : ReachableClient initialClient
  | doLogin (u : UserRec) (t : String) {s : ClientState} :
      ReachableClient s → ReachableClient (loginOp u t s)
  | doLogout {s : ClientState} :
      ReachableClient s → ReachableClient (logoutOp s)
  | doInitAuth {s : ClientState} :
      ReachableClient s → ReachableClient (initAuthOp s)

/-- `initAuth` either leaves the in-memory store untouched or sets it to a
fully authenticated triple. -/
theorem initAuthOp_store_cases (s : ClientState) :
    (initAuthOp s).store = s.store ∨
    ∃ u t, (initAuthOp s).store = AuthState.mk (some u) (some t) true := by
  unfold initAuthOp
  split
  · split
    · split
      · exact Or.inr ⟨_, _, rfl⟩
      · exact Or.inl rfl
    · exact Or.inl rfl
  · exact Or.inl rfl
  · exact Or.inl rfl
  · exact Or.inl rfl

/-- A fixed sample user record, used to instantiate theorems. -/
def sampleUser : UserRec :=
  ⟨"u-1", "admin@cyberxltr.com", "Admin", none, none, "admin"⟩

/-- C9: in every state of the client session store reachable from the
initial state by any sequence of `login`, `logout` and `initAuth`
operations, `isAuthenticated` is true if and only if both `user` and
`token` are non-null. -/
theorem auth_flag_iff_user_and_token (s : ClientState) (h : ReachableClient s) :
    s.store.isAuthenticated = true ↔
      (s.store.user ≠ none ∧ s.store.token ≠ none) := by
  induction h with
  | start => simp [initialClient, initialAuth]
  | doLogin u t _ => simp [loginOp]
  | doLogout _ => simp [logoutOp]
  | doInitAuth _ ih =>
    rcases initAuthOp_store_cases _ with hs | ⟨u, t, hs⟩
    · rw [hs]; exact ih
    · rw [hs]; simp

/-- Witness for C9, at the initial state. -/
theorem auth_flag_iff_user_and_token_witness :
    ReachableClient initialClient ∧
      (initialClient.store.isAuthenticated = true ↔
        (initialClient.store.user ≠ none ∧ initialClient.store.token ≠ none)) :=
  ⟨ReachableClient.start,
   auth_flag_iff_user_and_token initialClient ReachableClient.start⟩

/-- Counterexample to C3 as stated: for the token string `""`, a login
followed by a reload and `initAuth` does not restore the user and token —
`initAuth` skips the falsy empty token, leaving the freshly created store
unauthenticated. -/
theorem login_initAuth_empty_token_counterexample :
    (initAuthOp (reloadOp (loginOp sampleUser ("") initialClient))).store ≠
      AuthState.mk (some sampleUser) (some ("")) true := by
  decide

/-- C3 (amended): for every user record and every non-empty token string,
`login(user, token)` followed by a page reload and `initAuth` restores
exactly the same user and token with `isAuthenticated` true; `logout`
followed by a reload and `initAuth` yields null user and token and
`isAuthenticated` false. -/
theorem login_logout_initAuth_roundtrip (u : UserRec) (t : String)
    (s s' : ClientState) (ht : t ≠ "") :
    (initAuthOp (reloadOp (loginOp u t s))).store =
      AuthState.mk (some u) (some t) true ∧
    (initAuthOp (reloadOp (logoutOp s'))).store =
      AuthState.mk none none false := by
  constructor
  · have htE : t.isEmpty = false := by
      cases hE : t.isEmpty with
      | false => rfl
      | true => exact absurd ((String.isEmpty_iff t).mp hE) ht
    simp [initAuthOp, reloadOp, loginOp, strTruthy, storedUserTruthy,
      jsonParseUser, htE]
  · simp [initAuthOp, reloadOp, logoutOp, initialAuth]

/-- Witness for the amended C3. -/
theorem login_logout_initAuth_roundtrip_witness :
    (initAuthOp (reloadOp (loginOp sampleUser ("tok") initialClient))).store =
      AuthState.mk (some sampleUser) (some ("tok")) true ∧
    (initAuthOp (reloadOp (logoutOp initialClient))).store =
      AuthState.mk none none false :=
  login_logout_initAuth_roundtrip sampleUser ("tok") initialClient
    initialClient (by decide)

/-- A client state whose storage holds a truthy token and, under
`admin_user`, the empty string — which is not valid JSON. -/
def c10BadState : ClientState :=
  ⟨initialAuth, ⟨some ("t"), some (StoredUserVal.invalid (""))⟩⟩

/-- A client state whose storage holds a truthy token and a non-empty
invalid `admin_user` string. -/
def c10CleanupState : ClientState :=
  ⟨initialAuth, ⟨some ("t"), some (StoredUserVal.invalid ("x"))⟩⟩

/-- Counterexample to C10 as stated: with stored token `"t"` and stored
user string `""` (which is not valid JSON), `initAuth` removes neither
storage entry — the empty user string is falsy, so the cleanup branch is
never reached. -/
theorem initAuth_empty_user_string_counterexample :
    jsonParseUser (StoredUserVal.invalid ("")) = none ∧
    (initAuthOp c10BadState).storage.admin_user ≠ none ∧
    (initAuthOp c10BadState).storage.admin_token ≠ none := by
  decide

/-- C10 (amended): for every stored token and stored user string, both
non-empty, where the user string is not valid JSON, `initAuth` removes
both the `admin_token` and `admin_user` entries, leaves an unauthenticated
store unauthenticated, and raises no exception; if either storage entry is
absent — or is the empty string, which is falsy — `initAuth` leaves both
the store state and the storage unchanged. -/
theorem initAuth_invalid_user_cleanup :
    (∀ (t raw : String) (st : ClientState),
      st.store = initialAuth →
      st.storage.admin_token = some t →
      st.storage.admin_user = some (StoredUserVal.invalid raw) →
      t ≠ "" → raw ≠ "" →
      (initAuthOp st).storage = emptyStorage ∧
      (initAuthOp st).store = initialAuth) ∧
    (∀ st : ClientState,
      (st.storage.admin_token = none ∨ st.storage.admin_user = none ∨
        st.storage.admin_token = some ("") ∨
        st.storage.admin_user = some (StoredUserVal.invalid (""))) →
      initAuthOp st = st) := by
  constructor
  · intro t raw st hstore htok huser ht hraw
    have htE : t.isEmpty = false := by
      cases hE : t.isEmpty with
      | false => rfl
      | true => exact absurd ((String.isEmpty_iff t).mp hE) ht
    have hrawE : raw.isEmpty = false := by
      cases hE : raw.isEmpty with
      | false => rfl
      | true => exact absurd ((String.isEmpty_iff raw).mp hE) hraw
    simp [initAuthOp, htok, huser, strTruthy, storedUserTruthy,
      jsonParseUser, htE, hrawE, emptyStorage, hstore]
  · intro st h
    rcases h with h | h | h | h
    · cases hu : st.storage.admin_user with
      | none => simp [initAuthOp, h, hu]
      | some su => simp [initAuthOp, h, hu]
    · cases htk : st.storage.admin_token with
      | none => simp [initAuthOp, h, htk]
      | some t => simp [initAuthOp, h, htk]
    · cases hu : st.storage.admin_user with
      | none => simp [initAuthOp, h, hu]
      | some su =>
        simp [initAuthOp, h, hu, strTruthy]
        intro h1
        exact absurd h1 (by decide)
    · cases htk : st.storage.admin_token with
      | none => simp [initAuthOp, h, htk]
      | some t =>
        simp [initAuthOp, h, htk, strTruthy, storedUserTruthy]
        intro _ h2
        exact absurd h2 (by decide)

/-- Witness for the amended C10: cleanup at a concrete invalid state and
a no-op at the empty-storage state. -/
theorem initAuth_invalid_user_cleanup_witness :
    ((initAuthOp c10CleanupState).storage = emptyStorage ∧
      (initAuthOp c10CleanupState).store = initialAuth) ∧
    initAuthOp initialClient = initialClient :=
  ⟨initAuth_invalid_user_cleanup.1 ("t") ("x") c10CleanupState rfl rfl rfl
      (by decide) (by decide),
   initAuth_invalid_user_cleanup.2 initialClient (Or.inl rfl)⟩

/-- A non-empty string is truthy. -/
theorem strTruthy_of_ne (t : String) (h : t ≠ "") : strTruthy t = true := by
  cases hE : t.isEmpty with
  | false => simp [strTruthy, hE]
  | true => exact absurd ((String.isEmpty_iff t).mp hE) h

/-- C1: the login page stores the returned user and token in the session
store and navigates to `/dashboard` exactly when the response body carries
a true `success` flag together with a (non-empty) `access_token`; on any
other response or error it displays an error toast, does not navigate, and
leaves the client state — in particular the session store — unchanged. -/
theorem login_submit_stores_iff (resp : LoginResp) (s : ClientState) :
    (respHasSuccessAndToken resp →
      ∃ b t, resp = LoginResp.ok b ∧ b.access_token = some t ∧
        (onSubmitLogin resp s).state = loginOp b.user t s ∧
        (onSubmitLogin resp s).navigateTo = some ("/dashboard")) ∧
    (¬respHasSuccessAndToken resp →
      (onSubmitLogin resp s).state = s ∧
      (onSubmitLogin resp s).toastErrorMsg ≠ none ∧
      (onSubmitLogin resp s).navigateTo = none) := by
  cases resp with
  | err d =>
    constructor
    · intro hc
      rcases hc with ⟨b, t, hEq, _⟩
      exact absurd hEq (by simp)
    · intro _
      refine ⟨rfl, ?_, rfl⟩
      simp [onSubmitLogin]
  | ok b =>
    cases htok : b.access_token with
    | none =>
      constructor
      · intro hc
        rcases hc with ⟨b', t', hEq, hsucc, htk, hne⟩
        injection hEq with hbb
        subst hbb
        rw [htok] at htk
        exact absurd htk (by simp)
      · intro _
        refine ⟨?_, ?_, ?_⟩ <;> simp [onSubmitLogin, htok, loginSubmitElse]
    | some t =>
      by_cases hcond : (b.success && strTruthy t) = true
      · constructor
        · intro _
          refine ⟨b, t, rfl, htok, ?_, ?_⟩ <;> simp [onSubmitLogin, htok, hcond]
        · intro hnc
          exfalso
          apply hnc
          have hT : t ≠ "" := by
            intro hE
            have hst : strTruthy t = true := ((Bool.and_eq_true _ _).mp hcond).2
            rw [hE] at hst
            exact absurd hst (by decide)
          exact ⟨b, t, rfl, ((Bool.and_eq_true _ _).mp hcond).1, htok, hT⟩
      · constructor
        · intro hc
          exfalso
          rcases hc with ⟨b', t', hEq, hsucc, htk, hne⟩
          injection hEq with hbb
          subst hbb
          rw [htok] at htk
          injection htk with htt
          subst htt
          exact hcond (by simp [hsucc, strTruthy_of_ne t hne])
        · intro _
          refine ⟨?_, ?_, ?_⟩ <;>
            simp [onSubmitLogin, htok, hcond, loginSubmitElse]

/-- A sample successful login response body. -/
def sampleBody : LoginBody := ⟨true, some ("tok"), sampleUser, none⟩

/-- Witness for C1 at a concrete successful response. -/
theorem login_submit_stores_iff_witness :
    ∃ b t, LoginResp.ok sampleBody = LoginResp.ok b ∧
      b.access_token = some t ∧
      (onSubmitLogin (LoginResp.ok sampleBody) initialClient).state =
        loginOp b.user t initialClient ∧
      (onSubmitLogin (LoginResp.ok sampleBody) initialClient).navigateTo =
        some ("/dashboard") :=
  (login_submit_stores_iff (LoginResp.ok sampleBody) initialClient).1
    ⟨sampleBody, "tok", rfl, rfl, rfl, by decide⟩

/-- C2: any failed login attempt — wrong password for an existing active
account, or correct password for an inactive or unknown account — surfaces
the very same error to the caller: the `InvalidCredentials` outcome, with
the same shape and message in both runs. -/
theorem failed_logins_indistinguishable
    (hashMatches : String → String → Bool) (db : List DbUser)
    (e1 p1 e2 p2 : String)
    (hexists : ∃ u, u ∈ db ∧ u.email = e1 ∧ u.is_active = true)
    (hwrong : ∀ u, u ∈ db → u.email = e1 → u.is_active = true →
      hashMatches p1 u.encrypted_password = false)
    (hnoactive : ∀ u, u ∈ db → u.email = e2 → u.is_active = false) :
    verifyCredentials hashMatches db e1 p1 = AuthOutcome.invalidCredentials ∧
    verifyCredentials hashMatches db e2 p2 =
      verifyCredentials hashMatches db e1 p1 ∧
    loginErrorDetail (verifyCredentials hashMatches db e2 p2) =
      loginErrorDetail (verifyCredentials hashMatches db e1 p1) := by
  have h1 : verifyCredentials hashMatches db e1 p1 =
      AuthOutcome.invalidCredentials := by
    unfold verifyCredentials
    cases hfind : db.find? (fun u => u.email == e1 && u.is_active) with
    | none => rfl
    | some u =>
      have hmem : u ∈ db := List.mem_of_find?_eq_some hfind
      have hp := List.find?_some hfind
      simp only [Bool.and_eq_true, beq_iff_eq] at hp
      simp [hwrong u hmem hp.1 hp.2]
  have h2 : verifyCredentials hashMatches db e2 p2 =
      AuthOutcome.invalidCredentials := by
    unfold verifyCredentials
    have hfind : db.find? (fun u => u.email == e2 && u.is_active) = none := by
      rw [List.find?_eq_none]
      intro u hmem hp
      simp only [Bool.and_eq_true, beq_iff_eq] at hp
      have hpa := hp.2
      rw [hnoactive u hmem hp.1] at hpa
      exact Bool.false_ne_true hpa
    rw [hfind]
  exact ⟨h1, by rw [h1, h2], by rw [h1, h2]⟩

/-- A sample backend user row. -/
def sampleDbUser : DbUser :=
  ⟨"u-1", "admin@cyberxltr.com", "hash-1", "Admin", "User", "Admin User",
   "admin", true, true, "t0", "t0"⟩

/-- A sample hash comparison: plaintext equals stored value. -/
def sampleHashMatches (p h : String) : Bool := p == h

/-- Witness for C2 on a one-row table: wrong password for the active
account versus any password for an unknown email. -/
theorem failed_logins_indistinguishable_witness :
    verifyCredentials sampleHashMatches [sampleDbUser]
        ("admin@cyberxltr.com") ("wrong") = AuthOutcome.invalidCredentials ∧
    verifyCredentials sampleHashMatches [sampleDbUser]
        ("nobody@cyberxltr.com") ("hash-1") =
      verifyCredentials sampleHashMatches [sampleDbUser]
        ("admin@cyberxltr.com") ("wrong") ∧
    loginErrorDetail (verifyCredentials sampleHashMatches [sampleDbUser]
        ("nobody@cyberxltr.com") ("hash-1")) =
      loginErrorDetail (verifyCredentials sampleHashMatches [sampleDbUser]
        ("admin@cyberxltr.com") ("wrong")) :=
  failed_logins_indistinguishable sampleHashMatches [sampleDbUser]
    ("admin@cyberxltr.com") ("wrong") ("nobody@cyberxltr.com") ("hash-1")
    ⟨sampleDbUser, by decide⟩ (by decide) (by decide)

/-- Flipping the active flag changes no other organization field. -/
theorem orgFrame_set_active (r : OrgRec) (oid : String) (b : Bool) :
    orgFrame (if r.id == oid then { r with is_active := b } else r) =
      orgFrame r := by
  by_cases h : r.id == oid
  · rw [if_pos h]
    rfl
  · rw [if_neg h]


/-- Flipping the active flag changes no other user field. -/
theorem dbUserFrame_set_active (r : DbUser) (uid : String) (b : Bool) :
    dbUserFrame (if r.id == uid then { r with is_active := b } else r) =
      dbUserFrame r := by
  by_cases h : r.id == uid
  · rw [if_pos h]
    rfl
  · rw [if_neg h]

/-- C4: on both the organizations and the users page, the status toggle
issues `DELETE /api/v1/{resource}/{id}` exactly when the `is_active` flag
of the row is true and `POST /api/v1/{resource}/{id}/reactivate`
exactly when it is false; and (modelled from the spec) the backend DELETE
removes no row — it only sets the active flag of the target to false, leaving
every other field of every row unchanged. -/
theorem toggle_status_soft_delete :
    (∀ o : OrgRec,
      (orgToggleRequest o = ApiRequest.del ("/api/v1/organizations/" ++ o.id) ↔
        o.is_active = true) ∧
      (orgToggleRequest o =
          ApiRequest.post ("/api/v1/organizations/" ++ o.id ++ "/reactivate") ↔
        o.is_active = false)) ∧
    (∀ u : PageUserRec,
      (userToggleRequest u = ApiRequest.del ("/api/v1/users/" ++ u.id) ↔
        u.is_active = true) ∧
      (userToggleRequest u =
          ApiRequest.post ("/api/v1/users/" ++ u.id ++ "/reactivate") ↔
        u.is_active = false)) ∧
    (∀ (oid : String) (tbl : List OrgRec),
      (deactivateOrgRow oid tbl).map orgFrame = tbl.map orgFrame ∧
      (deactivateOrgRow oid tbl).length = tbl.length ∧
      (∀ r, r ∈ deactivateOrgRow oid tbl → r.id = oid →
        r.is_active = false)) ∧
    (∀ (uid : String) (tbl : List DbUser),
      (deactivateUserRow uid tbl).map dbUserFrame = tbl.map dbUserFrame ∧
      (deactivateUserRow uid tbl).length = tbl.length ∧
      (∀ r, r ∈ deactivateUserRow uid tbl → r.id = uid →
        r.is_active = false)) := by
  refine ⟨?_, ?_, ?_, ?_⟩
  · intro o
    cases ha : o.is_active with
    | true => constructor <;> simp [orgToggleRequest, ha]
    | false => constructor <;> simp [orgToggleRequest, ha]
  · intro u
    cases ha : u.is_active with
    | true => constructor <;> simp [userToggleRequest, ha]
    | false => constructor <;> simp [userToggleRequest, ha]
  · intro oid tbl
    refine ⟨?_, ?_, ?_⟩
    · rw [deactivateOrgRow, List.map_map]
      exact List.map_congr_left (fun r _ => orgFrame_set_active r oid false)
    · rw [deactivateOrgRow, List.length_map]
    · intro r hr hid
      rcases List.mem_map.mp hr with ⟨r0, _, hr0⟩
      by_cases h0 : r0.id == oid
      · rw [if_pos h0] at hr0
        rw [← hr0]
      · rw [if_neg h0] at hr0
        subst hr0
        exact absurd (beq_iff_eq.mpr hid) h0
  · intro uid tbl
    refine ⟨?_, ?_, ?_⟩
    · rw [deactivateUserRow, List.map_map]
      exact List.map_congr_left (fun r _ => dbUserFrame_set_active r uid false)
    · rw [deactivateUserRow, List.length_map]
    · intro r hr hid
      rcases List.mem_map.mp hr with ⟨r0, _, hr0⟩
      by_cases h0 : r0.id == uid
      · rw [if_pos h0] at hr0
        rw [← hr0]
      · rw [if_neg h0] at hr0
        subst hr0
        exact absurd (beq_iff_eq.mpr hid) h0

/-- A sample organization record, active. -/
def sampleOrg : OrgRec :=
  ⟨"o-1", "Acme Corp", "acme", "starter", true, "t0", none, none, none, none⟩

/-- Witness for C4: the toggle on an active organization issues DELETE,
and the modelled DELETE preserves every non-active field. -/
theorem toggle_status_soft_delete_witness :
    orgToggleRequest sampleOrg =
      ApiRequest.del ("/api/v1/organizations/" ++ sampleOrg.id) ∧
    (deactivateOrgRow ("o-1") [sampleOrg]).map orgFrame =
      [sampleOrg].map orgFrame :=
  ⟨(toggle_status_soft_delete.1 sampleOrg).1.mpr rfl,
   (toggle_status_soft_delete.2.2.1 ("o-1") [sampleOrg]).1⟩

/-- C5 (spec-modelled backend): deactivating then reactivating a user
leaves the table equal to a pointwise update that only sets the
active flag of the target to true; the target reappears in default listings with every
field equal to its value before deactivation except the active flag, and
neither operation modifies any other field of any row. -/
theorem deactivate_reactivate_roundtrip (uid : String) (tbl : List DbUser) :
    reactivateUserRow uid (deactivateUserRow uid tbl) =
      tbl.map (fun r => if r.id == uid then { r with is_active := true } else r) ∧
    (deactivateUserRow uid tbl).map dbUserFrame = tbl.map dbUserFrame ∧
    (reactivateUserRow uid (deactivateUserRow uid tbl)).map dbUserFrame =
      tbl.map dbUserFrame ∧
    (∀ r, r ∈ tbl → r.id = uid →
      { r with is_active := true } ∈
        reactivateUserRow uid (deactivateUserRow uid tbl) ∧
      { r with is_active := true } ∈
        listedUsers (reactivateUserRow uid (deactivateUserRow uid tbl)) ∧
      dbUserFrame { r with is_active := true } = dbUserFrame r) ∧
    (∀ r, r ∈ tbl → r.id ≠ uid →
      r ∈ reactivateUserRow uid (deactivateUserRow uid tbl)) := by
  have hcomp : ∀ r : DbUser,
      (fun x : DbUser =>
        if x.id == uid then { x with is_active := true } else x)
        ((fun x : DbUser =>
          if x.id == uid then { x with is_active := false } else x) r) =
      (if r.id == uid then { r with is_active := true } else r) := by
    intro r
    by_cases h0 : r.id == uid
    · simp [h0]
    · simp [h0]
  have heq : reactivateUserRow uid (deactivateUserRow uid tbl) =
      tbl.map (fun r => if r.id == uid then { r with is_active := true } else r) := by
    rw [reactivateUserRow, deactivateUserRow, List.map_map]
    exact List.map_congr_left (fun r _ => hcomp r)
  refine ⟨heq, ?_, ?_, ?_, ?_⟩
  · rw [deactivateUserRow, List.map_map]
    exact List.map_congr_left (fun r _ => dbUserFrame_set_active r uid false)
  · rw [heq, List.map_map]
    exact List.map_congr_left (fun r _ => dbUserFrame_set_active r uid true)
  · intro r hmem hid
    have hb : (r.id == uid) = true := beq_iff_eq.mpr hid
    have hval : (if r.id == uid then { r with is_active := true } else r) =
        { r with is_active := true } := by rw [if_pos hb]
    refine ⟨?_, ?_, rfl⟩
    · rw [heq]
      have hin := List.mem_map_of_mem
        (fun r : DbUser =>
          if r.id == uid then { r with is_active := true } else r) hmem
      simpa only [hval] using hin
    · rw [heq]
      simp only [listedUsers]
      refine List.mem_filter.mpr ⟨?_, rfl⟩
      have hin := List.mem_map_of_mem
        (fun r : DbUser =>
          if r.id == uid then { r with is_active := true } else r) hmem
      simpa only [hval] using hin
  · intro r hmem hneq
    have hb : (r.id == uid) = false := by
      rw [beq_eq_false_iff_ne]
      exact hneq
    have hval : (if r.id == uid then { r with is_active := true } else r) = r := by
      rw [hb]
      simp
    rw [heq]
    have hin := List.mem_map_of_mem
      (fun r : DbUser =>
        if r.id == uid then { r with is_active := true } else r) hmem
    simpa only [hval] using hin

/-- Witness for C5 on a one-row table. -/
theorem deactivate_reactivate_roundtrip_witness :
    { sampleDbUser with is_active := true } ∈
      reactivateUserRow ("u-1") (deactivateUserRow ("u-1") [sampleDbUser]) ∧
    { sampleDbUser with is_active := true } ∈
      listedUsers
        (reactivateUserRow ("u-1") (deactivateUserRow ("u-1") [sampleDbUser])) ∧
    dbUserFrame { sampleDbUser with is_active := true } =
      dbUserFrame sampleDbUser :=
  (deactivate_reactivate_roundtrip ("u-1") [sampleDbUser]).2.2.2.1
    sampleDbUser (List.mem_singleton.mpr rfl) rfl

/-- C6: the create-user form submits a creation request exactly when a
non-empty organization is selected, the password has at least 8
characters, and the password matches its confirmation; otherwise a toast
error is shown and no request is sent; and the organizations offered in
the dropdown are exactly the fetched ones whose active flag is true. -/
theorem create_user_validation (f : UserForm) (orgs : List OrgChoice) :
    ((∃ g, handleCreateUser f = UserCreateAction.submit g) ↔
      (f.organization_id ≠ "" ∧ 8 ≤ f.password.length ∧
        f.password = f.confirm_password)) ∧
    ((f.organization_id ≠ "" ∧ 8 ≤ f.password.length ∧
        f.password = f.confirm_password) →
      handleCreateUser f = UserCreateAction.submit f) ∧
    (¬(f.organization_id ≠ "" ∧ 8 ≤ f.password.length ∧
        f.password = f.confirm_password) →
      ∃ m, handleCreateUser f = UserCreateAction.reject m) ∧
    (∀ o, o ∈ activeOrgs orgs ↔ (o ∈ orgs ∧ o.is_active = true)) := by
  have hchar : (f.organization_id ≠ "" ∧ 8 ≤ f.password.length ∧
      f.password = f.confirm_password) →
      handleCreateUser f = UserCreateAction.submit f := by
    intro hc
    unfold handleCreateUser
    rw [if_neg (fun hne => hne hc.2.2), if_neg (Nat.not_lt.mpr hc.2.1),
      if_neg (fun h3 => hc.1 ((String.isEmpty_iff _).mp h3))]
  have hrej : ¬(f.organization_id ≠ "" ∧ 8 ≤ f.password.length ∧
      f.password = f.confirm_password) →
      ∃ m, handleCreateUser f = UserCreateAction.reject m := by
    intro hnc
    unfold handleCreateUser
    by_cases h1 : f.password = f.confirm_password
    · by_cases h2 : f.password.length < 8
      · exact ⟨_, by rw [if_neg (fun hne => hne h1), if_pos h2]⟩
      · by_cases h3 : f.organization_id.isEmpty
        · exact ⟨_, by rw [if_neg (fun hne => hne h1), if_neg h2, if_pos h3]⟩
        · exact absurd ⟨fun hE => h3 ((String.isEmpty_iff _).mpr hE),
            Nat.le_of_not_lt h2, h1⟩ hnc
    · exact ⟨_, by rw [if_pos h1]⟩
  refine ⟨?_, hchar, hrej, ?_⟩
  · constructor
    · rintro ⟨g, hg⟩
      by_contra hnc
      rcases hrej hnc with ⟨m, hm⟩
      rw [hm] at hg
      exact absurd hg (by simp)
    · intro hc
      exact ⟨f, hchar hc⟩
  · intro o
    simp [activeOrgs, List.mem_filter]

/-- A sample valid create-user form. -/
def sampleUserForm : UserForm :=
  ⟨"new@acme.com", "New", "User", "", "", "", "password1", "password1",
   "o-1", "sales_rep"⟩

/-- A sample active organization for the dropdown. -/
def sampleOrgChoice : OrgChoice := ⟨"o-1", "Acme Corp", true⟩

/-- Witness for C6: a valid form is submitted, and the dropdown
membership equivalence at a concrete organization. -/
theorem create_user_validation_witness :
    handleCreateUser sampleUserForm = UserCreateAction.submit sampleUserForm ∧
    (sampleOrgChoice ∈ activeOrgs [sampleOrgChoice] ↔
      (sampleOrgChoice ∈ [sampleOrgChoice] ∧
        sampleOrgChoice.is_active = true)) :=
  ⟨(create_user_validation sampleUserForm []).2.1
      ⟨by decide, by decide, rfl⟩,
   (create_user_validation sampleUserForm [sampleOrgChoice]).2.2.2
      sampleOrgChoice⟩

/-- C7: for every organization or notification create request that fails
with a string `detail`, the page toasts exactly that detail and leaves
every form field unchanged; the form is reset to its empty defaults only
when the create request succeeds. -/
theorem create_error_leaves_form (ro : OrgCreateResp) (fo : OrgForm)
    (rn : NotifCreateResp) (fn : NotifForm) :
    (∀ m, ro = OrgCreateResp.err (some m) →
      (handleCreateOrg ro fo).toastErrorMsg = some m ∧
      (handleCreateOrg ro fo).form = fo) ∧
    ((handleCreateOrg ro fo).form ≠ fo →
      ro = OrgCreateResp.ok true ∧
      (handleCreateOrg ro fo).form = emptyOrgForm) ∧
    (∀ m, rn = NotifCreateResp.err (some m) →
      (handleCreateNotif rn fn).toastErrorMsg = some m ∧
      (handleCreateNotif rn fn).form = fn) ∧
    ((handleCreateNotif rn fn).form ≠ fn →
      (∃ su nu, rn = NotifCreateResp.ok su nu ∧ (su || nu) = true) ∧
      (handleCreateNotif rn fn).form = emptyNotifForm) := by
  refine ⟨?_, ?_, ?_, ?_⟩
  · intro m hm
    subst hm
    exact ⟨rfl, rfl⟩
  · intro hch
    cases ro with
    | ok s =>
      cases s with
      | true => exact ⟨rfl, rfl⟩
      | false => exact absurd rfl hch
    | err d => exact absurd rfl hch
  · intro m hm
    subst hm
    exact ⟨rfl, rfl⟩
  · intro hch
    cases rn with
    | ok su nu =>
      cases hsn : (su || nu) with
      | true =>
        refine ⟨⟨su, nu, rfl, hsn⟩, ?_⟩
        simp [handleCreateNotif, hsn]
      | false =>
        exfalso
        apply hch
        simp [handleCreateNotif, hsn]
    | err d => exact absurd rfl hch

/-- A sample organization create form. -/
def sampleOrgForm : OrgForm :=
  ⟨"Acme Corp", "acme", "starter", "", "", "", ""⟩

/-- Witness for C7 on concrete failed create requests. -/
theorem create_error_leaves_form_witness :
    ((handleCreateOrg (OrgCreateResp.err (some ("URL already exists")))
        sampleOrgForm).toastErrorMsg = some ("URL already exists") ∧
      (handleCreateOrg (OrgCreateResp.err (some ("URL already exists")))
        sampleOrgForm).form = sampleOrgForm) ∧
    ((handleCreateNotif (NotifCreateResp.err (some ("Title is required")))
        emptyNotifForm).toastErrorMsg = some ("Title is required") ∧
      (handleCreateNotif (NotifCreateResp.err (some ("Title is required")))
        emptyNotifForm).form = emptyNotifForm) :=
  ⟨(create_error_leaves_form (OrgCreateResp.err (some ("URL already exists")))
      sampleOrgForm (NotifCreateResp.err (some ("Title is required")))
      emptyNotifForm).1 ("URL already exists") rfl,
   (create_error_leaves_form (OrgCreateResp.err (some ("URL already exists")))
      sampleOrgForm (NotifCreateResp.err (some ("Title is required")))
      emptyNotifForm).2.2.1 ("Title is required") rfl⟩

/-- The empty needle is an infix of every list. -/
theorem jsIncludes_nil_right (hay : String) : jsIncludes hay ("") = true := by
  rw [jsIncludes]
  have hd0 : ("").data = ([] : List Char) := rfl
  rw [hd0]
  cases hd : hay.data with
  | nil => rfl
  | cons c t => rfl

/-- `listOccursIn` decides the infix relation. -/
theorem listOccursIn_iff (n h : List Char) :
    listOccursIn n h = true ↔ n <:+: h := by
  induction h with
  | nil => simp [listOccursIn, List.isEmpty_iff, List.infix_nil]
  | cons c t ih =>
    simp only [listOccursIn, Bool.or_eq_true, List.isPrefixOf_iff_prefix, ih]
    exact (List.infix_cons_iff).symm

/-- Case-insensitive substring containment: the lower-cased needle occurs
inside the lower-cased haystack. -/
def containsCI (hay needle : String) : Prop :=
  (jsToLower needle).data <:+: (jsToLower hay).data

/-- C8: the organizations rendered are exactly the fetched ones whose name
or url contains the search string case-insensitively; with the empty
search string every fetched organization is rendered, active and inactive
alike, and the status badge of a row reads `Active` exactly when its
active flag is set. -/
theorem org_search_filter (orgs : List OrgRec) (search : String) :
    (∀ o, o ∈ filteredOrgs orgs search ↔
      (o ∈ orgs ∧ (containsCI o.name search ∨ containsCI o.url search))) ∧
    filteredOrgs orgs ("") = orgs ∧
    (∀ o, o ∈ orgs →
      ((orgStatusLabel o = "Active" ↔ o.is_active = true) ∧
        (orgStatusLabel o = "Inactive" ↔ o.is_active = false))) := by
  refine ⟨?_, ?_, ?_⟩
  · intro o
    simp only [filteredOrgs, List.mem_filter, Bool.or_eq_true, jsIncludes,
      listOccursIn_iff, containsCI]
  · rw [filteredOrgs, List.filter_eq_self]
    intro o _
    have h1 : jsToLower ("") = "" := rfl
    simp [h1, jsIncludes_nil_right]
  · intro o _
    cases ha : o.is_active with
    | true => constructor <;> simp [orgStatusLabel, ha]
    | false => constructor <;> simp [orgStatusLabel, ha]

/-- Witness for C8: the filter equivalence at a concrete organization and
search string, and the empty search rendering everything. -/
theorem org_search_filter_witness :
    (sampleOrg ∈ filteredOrgs [sampleOrg] ("CME") ↔
      (sampleOrg ∈ [sampleOrg] ∧
        (containsCI sampleOrg.name ("CME") ∨
          containsCI sampleOrg.url ("CME")))) ∧
    filteredOrgs [sampleOrg] ("") = [sampleOrg] :=
  ⟨(org_search_filter [sampleOrg] ("CME")).1 sampleOrg,
   (org_search_filter [sampleOrg] ("")).2.1⟩
